import Mathlib

/-
Verification of the divbloxjs dx-db-connector connector class
(`DivbloxDatabaseConnector`, most complete variant).

The JavaScript connector is embedded shallowly:

* JavaScript values that the connector inspects (undefined, null, booleans,
  strings, arrays, error objects) are the inductive type `JsVal`.
* The mysql driver behind the connection facade returned by `connectDB`
  (the object with query/beginTransaction/commit/rollback/close) is an
  external collaborator; it is abstracted as a `Driver` record of
  success flags and resolution values.  Every driver call is logged, in
  program order, as an `Event` in the connector state, so ordering and
  "was this driver operation invoked" claims become statements about the
  event trace.
* The error ledger `this.errorInfo` is the `errors` field of the state;
  `populateError` is embedded keeping the message computation of the
  source (timestamps, stack chains and console printing are elided, the
  ledger claims concern only the sequence of recorded messages).
* `async` control flow with exceptions becomes explicit state passing
  with `Except JsErr`: a rejected promise / thrown error is the
  `Except.error` case, carried together with the state reached so far.

Each connector method is one Lean function, translated clause by clause
from the class body.
-/

namespace DxDb

/-- JavaScript values the connector code inspects or returns. -/
inductive JsVal where
  | undef : JsVal
  | jsNull : JsVal
  | jsBool : Bool → JsVal
  | jsStr : String → JsVal
  | jsArr : List JsVal → JsVal
  | jsErr : String → JsVal

/-- `typeof v === "undefined"`. -/
def isUndef : JsVal → Bool
  | JsVal.undef => true
  | _ => false

/-- `v === undefined || v === null` (used for the transaction argument test
`transaction !== undefined && transaction !== null`). -/
def isNullish : JsVal → Bool
  | JsVal.undef => true
  | JsVal.jsNull => true
  | _ => false

/-- JavaScript truthiness for the values of `JsVal`. -/
def truthy : JsVal → Bool
  | JsVal.undef => false
  | JsVal.jsNull => false
  | JsVal.jsBool b => b
  | JsVal.jsStr m => !m.isEmpty
  | JsVal.jsArr _ => true
  | JsVal.jsErr _ => true

/-- `dxUtils.isValidObject` (external collaborator): true on proper objects,
false on primitives.  Error objects and arrays are objects. -/
def isValidObject : JsVal → Bool
  | JsVal.jsErr _ => true
  | JsVal.jsArr _ => true
  | _ => false

/-- `v.message ? v.message : "No message provided"` for a non-string value. -/
def messageOf : JsVal → String
  | JsVal.jsErr m => if m.isEmpty then "No message provided" else m
  | _ => "No message provided"

/-- Driver operations invoked through the connection facade, plus the pool
acquire performed by `connectDB`/`getPoolConnection`.  The connector state
records them in invocation order. -/
inductive Event where
  | acquire : JsVal → Event
  | query : JsVal → JsVal → Event
  | beginTx : Event
  | commitTx : Event
  | rollbackTx : Event
  | closeTx : Event

/-- JavaScript errors: driver rejections, TypeError (member access on null),
ReferenceError (identifier not in scope). -/
inductive JsErr where
  | driverErr : String → JsErr
  | typeErr : String → JsErr
  | refErr : String → JsErr

/-- Connector state: the trace of driver calls made so far, and the error
ledger `this.errorInfo` (messages, oldest first). -/
structure St where
  events : List Event
  errors : List String

/-- Record one driver call. -/
def addEvent (e : Event) (s : St) : St :=
  { s with events := s.events ++ [e] }

/-- Append one record to the error ledger. -/
def pushErr (m : String) (s : St) : St :=
  { s with errors := s.errors ++ [m] }

/-- Behaviour of the external pool/driver for one connector operation:
whether each primitive succeeds, keyed by module name for acquire and by
sql value for query, and the values successful calls resolve with
(node-mysql commit/rollback callbacks carry no result, so their promisified
resolution value is `undefined`; it is kept as a parameter here). -/
structure Driver where
  acquireOk : JsVal → Bool
  queryOk : JsVal → Bool
  queryRes : JsVal → JsVal
  beginOk : Bool
  commitOk : Bool
  commitRes : JsVal
  rollbackOk : Bool
  rollbackRes : JsVal
  closeOk : Bool

/-- `populateError(errorToPush, errorStack?, mustClean?)` with the defaults
used throughout the connector (`errorStack` omitted, `mustClean` false).
The pushed record keeps the resolved `message`; the stack-chain fields of
`DxBaseError` are elided. A string pushes itself as message; a valid object
pushes its message field or the fallback; any other shape pushes the
meta-error about the invalid error type (the recursive call in the source,
which always takes the string branch). -/
def populateError (errorToPush : JsVal) (s : St) : St :=
  match errorToPush with
  | JsVal.jsStr m => pushErr m s
  | v =>
    if isValidObject v then pushErr (messageOf v) s
    else pushErr "Invalid error type provided, errors can be only of type string or Object" s

/-- Facade `query(sql, args)`: one driver query call. -/
def fQuery (d : Driver) (sql vals : JsVal) (s : St) : Except JsErr JsVal × St :=
  let s1 := addEvent (Event.query sql vals) s
  if d.queryOk sql then (Except.ok (d.queryRes sql), s1)
  else (Except.error (JsErr.driverErr "query failed"), s1)

/-- Facade `beginTransaction()`: one driver begin call (resolves undefined). -/
def fBegin (d : Driver) (s : St) : Except JsErr JsVal × St :=
  let s1 := addEvent Event.beginTx s
  if d.beginOk then (Except.ok JsVal.undef, s1)
  else (Except.error (JsErr.driverErr "begin failed"), s1)

/-- Facade `commit()`: one driver commit call. -/
def fCommit (d : Driver) (s : St) : Except JsErr JsVal × St :=
  let s1 := addEvent Event.commitTx s
  if d.commitOk then (Except.ok d.commitRes, s1)
  else (Except.error (JsErr.driverErr "commit failed"), s1)

/-- Facade `rollback()`: one driver rollback call. -/
def fRollback (d : Driver) (s : St) : Except JsErr JsVal × St :=
  let s1 := addEvent Event.rollbackTx s
  if d.rollbackOk then (Except.ok d.rollbackRes, s1)
  else (Except.error (JsErr.driverErr "rollback failed"), s1)

/-- Facade `close()`: `connection.release()`. -/
def fClose (d : Driver) (s : St) : Except JsErr JsVal × St :=
  let s1 := addEvent Event.closeTx s
  if d.closeOk then (Except.ok JsVal.undef, s1)
  else (Except.error (JsErr.driverErr "close failed"), s1)

/-- `connectDB(moduleName)`: rejects an undefined module name with a ledger
entry and null; otherwise acquires a pooled connection (the `acquire`
event); on acquire failure the catch records the error and yields null.
The returned facade is the opaque handle `Unit`. -/
def connectDB (d : Driver) (moduleName : JsVal) (s : St) :
    Except JsErr (Option Unit) × St :=
  if isUndef moduleName then
    (Except.ok none, populateError (JsVal.jsStr "Invalid module name provided") s)
  else
    let s1 := addEvent (Event.acquire moduleName) s
    if d.acquireOk moduleName then (Except.ok (some ()), s1)
    else (Except.ok none,
          populateError (JsVal.jsStr "Could not interact with the database") s1)

/-- `beginTransaction(moduleName)`: connect, then driver begin; on begin
failure record the error, close the connection (a throw from that close
propagates, there is no surrounding catch) and return null; on success
return the live handle. -/
def beginTransaction (d : Driver) (moduleName : JsVal) (s : St) :
    Except JsErr (Option Unit) × St :=
  match connectDB d moduleName s with
  | (Except.ok none, s1) =>
    (Except.ok none, populateError (JsVal.jsStr "Could not connect to database") s1)
  | (Except.ok (some conn), s1) =>
    match fBegin d s1 with
    | (Except.ok _, s2) => (Except.ok (some conn), s2)
    | (Except.error _, s2) =>
      let s3 := populateError (JsVal.jsStr "Error beginning") s2
      match fClose d s3 with
      | (Except.ok _, s4) => (Except.ok none, s4)
      | (Except.error e, s4) => (Except.error e, s4)
  | (Except.error e, s1) => (Except.error e, s1)

/-- `closeTransaction(transaction)`: null handle records an error and gives
false; otherwise one facade close, catching a close failure into the
ledger with result false, and true on success.  Never throws. -/
def closeTransaction (d : Driver) (transaction : Option Unit) (s : St) :
    Except JsErr JsVal × St :=
  match transaction with
  | none =>
    (Except.ok (JsVal.jsBool false),
     populateError (JsVal.jsStr "Could not close transaction. Invalid connection provided") s)
  | some _ =>
    match fClose d s with
    | (Except.ok _, s1) => (Except.ok (JsVal.jsBool true), s1)
    | (Except.error _, s1) =>
      (Except.ok (JsVal.jsBool false),
       populateError (JsVal.jsStr "Could not close transaction") s1)

/-- `commitTransaction(transaction, closeTransaction = true)`.  The local
float of the source is kept exactly: `commitSuccess` starts as the commit
resolution value (or `false` after the catch, which also attempts a
rollback and on rollback failure forces the close flag), then
`if (!closeTransaction) return commitSuccess;` and finally
`commitSuccess &&= await this.closeTransaction(transaction)`, whose
logical-AND assignment evaluates the close only when `commitSuccess` is
truthy. -/
def commitTransaction (d : Driver) (transaction : Option Unit) (closeAfter : Bool)
    (s : St) : Except JsErr JsVal × St :=
  match transaction with
  | none =>
    (Except.ok (JsVal.jsBool false),
     populateError (JsVal.jsStr "Could not commit transaction. Invalid connection provided") s)
  | some conn =>
    let step :=
      match fCommit d s with
      | (Except.ok v, s1) => (v, closeAfter, s1)
      | (Except.error _, s1) =>
        let s2 := populateError (JsVal.jsStr "Error committing transaction") s1
        match fRollback d s2 with
        | (Except.ok _, s3) => (JsVal.jsBool false, closeAfter, s3)
        | (Except.error _, s3) =>
          (JsVal.jsBool false, true,
           populateError (JsVal.jsStr "Error rolling transaction back") s3)
    match step with
    | (commitSuccess, closeFlag, s4) =>
      if !closeFlag then (Except.ok commitSuccess, s4)
      else
        if truthy commitSuccess then
          match closeTransaction d (some conn) s4 with
          | (Except.ok b, s5) => (Except.ok b, s5)
          | (Except.error _, s5) =>
            (Except.ok (JsVal.jsBool false),
             populateError (JsVal.jsStr "Could not close transaction") s5)
        else (Except.ok commitSuccess, s4)

/-- `rollBackTransaction(transaction, closeTransaction = true)`: null handle
records an error and gives false; otherwise one driver rollback, whose
failure sets the result to false, forces the close flag and records the
error; then the same `if (!closeTransaction) return` /
`rollBackSuccess &&= await this.closeTransaction(transaction)` tail as
`commitTransaction`. -/
def rollBackTransaction (d : Driver) (transaction : Option Unit) (closeAfter : Bool)
    (s : St) : Except JsErr JsVal × St :=
  match transaction with
  | none =>
    (Except.ok (JsVal.jsBool false),
     populateError (JsVal.jsStr "Could not roll back transaction. Invalid connection provided") s)
  | some conn =>
    let step :=
      match fRollback d s with
      | (Except.ok v, s1) => (v, closeAfter, s1)
      | (Except.error _, s1) =>
        (JsVal.jsBool false, true,
         populateError (JsVal.jsStr "Error rolling transaction back") s1)
    match step with
    | (rollBackSuccess, closeFlag, s2) =>
      if !closeFlag then (Except.ok rollBackSuccess, s2)
      else
        if truthy rollBackSuccess then
          match closeTransaction d (some conn) s2 with
          | (Except.ok b, s3) => (Except.ok b, s3)
          | (Except.error _, s3) =>
            (Except.ok (JsVal.jsBool false),
             populateError (JsVal.jsStr "Could not close transaction") s3)
        else (Except.ok rollBackSuccess, s2)

/-- `queryDB(query, moduleName, values, transaction)`: undefined query or
module name records an error and yields null before any driver call; a
non-nullish transaction argument supplies the connection (not closed
afterwards), otherwise `connectDB` acquires a private one; a query failure
is caught into the ledger with null result; on the private path the
connection is closed afterwards, a close failure being caught into the
ledger. -/
def queryDB (d : Driver) (query moduleName vals transaction : JsVal) (s : St) :
    Except JsErr JsVal × St :=
  if isUndef query then
    (Except.ok JsVal.jsNull, populateError (JsVal.jsStr "Invalid query provided") s)
  else if isUndef moduleName then
    (Except.ok JsVal.jsNull, populateError (JsVal.jsStr "Invalid module name provided") s)
  else
    let withTransaction := !isNullish transaction
    let acq : Option Unit × St :=
      if withTransaction then (some (), s)
      else
        match connectDB d moduleName s with
        | (Except.ok v, s1) => (v, s1)
        | (Except.error _, s1) => (none, s1)
    match acq with
    | (none, s1) => (Except.ok JsVal.jsNull, s1)
    | (some _, s1) =>
      let run : JsVal × St :=
        match fQuery d query vals s1 with
        | (Except.ok v, s2) => (v, s2)
        | (Except.error _, s2) =>
          (JsVal.jsNull, populateError (JsVal.jsStr "Could not query the database") s2)
      match run with
      | (queryResult, s3) =>
        if withTransaction then (Except.ok queryResult, s3)
        else
          match fClose d s3 with
          | (Except.ok _, s4) => (Except.ok queryResult, s4)
          | (Except.error _, s4) =>
            (Except.ok queryResult,
             populateError (JsVal.jsStr "Could not close the database") s4)

/-- The `for (const query of queryArray)` loop of the callback built in
`queryDBMultiple`: executes each `{sql, values}` pair in array order on the
shared connection, collecting the results; the first driver failure throws
out of the loop. -/
def runQueries (d : Driver) (qs : List (JsVal × JsVal)) (s : St) :
    Except JsErr (List JsVal) × St :=
  match qs with
  | [] => (Except.ok [], s)
  | q :: rest =>
    match fQuery d q.1 q.2 s with
    | (Except.ok r, s1) =>
      match runQueries d rest s1 with
      | (Except.ok rs, s2) => (Except.ok (r :: rs), s2)
      | (Except.error e, s2) => (Except.error e, s2)
    | (Except.error e, s1) => (Except.error e, s1)

/-- The catch block of `queryWithTransaction`: null result, record the
failure, attempt a rollback and catch a rollback failure into the ledger. -/
def qwtCatch (d : Driver) (s : St) : JsVal × St :=
  let s1 := populateError (JsVal.jsStr "Could not query with transaction") s
  match fRollback d s1 with
  | (Except.ok _, s2) => (JsVal.jsNull, s2)
  | (Except.error _, s2) =>
    (JsVal.jsNull, populateError (JsVal.jsStr "Could not roll back transaction") s2)

/-- `queryWithTransaction(database, callback)`: null database records an
error and yields null; otherwise begin, callback, commit, any of whose
failures takes the catch path (null result, rollback attempt); the final
`await database.close()` is outside the try, so a close throw propagates
to the caller. -/
def queryWithTransaction (d : Driver) (database : Option Unit)
    (callback : St → Except JsErr JsVal × St) (s : St) : Except JsErr JsVal × St :=
  match database with
  | none =>
    (Except.ok JsVal.jsNull,
     populateError (JsVal.jsStr "Tried to call queryWithTransaction, but database was NULL") s)
  | some _ =>
    let body : JsVal × St :=
      match fBegin d s with
      | (Except.error _, s1) => qwtCatch d s1
      | (Except.ok _, s1) =>
        match callback s1 with
        | (Except.error _, s2) => qwtCatch d s2
        | (Except.ok r, s2) =>
          match fCommit d s2 with
          | (Except.error _, s3) => qwtCatch d s3
          | (Except.ok _, s3) => (r, s3)
    match body with
    | (queryResult, s4) =>
      match fClose d s4 with
      | (Except.ok _, s5) => (Except.ok queryResult, s5)
      | (Except.error e, s5) => (Except.error e, s5)

/-- `queryDBMultiple(queryArray, moduleName)`: connect (null connection
yields null), then run the batch loop through `queryWithTransaction`,
catching any escaped throw into the ledger with null result. -/
def queryDBMultiple (d : Driver) (queryArray : List (JsVal × JsVal))
    (moduleName : JsVal) (s : St) : Except JsErr JsVal × St :=
  match connectDB d moduleName s with
  | (Except.ok none, s1) => (Except.ok JsVal.jsNull, s1)
  | (Except.ok (some conn), s1) =>
    let cb : St → Except JsErr JsVal × St := fun s0 =>
      match runQueries d queryArray s0 with
      | (Except.ok rs, s2) => (Except.ok (JsVal.jsArr rs), s2)
      | (Except.error e, s2) => (Except.error e, s2)
    match queryWithTransaction d (some conn) cb s1 with
    | (Except.ok r, s2) => (Except.ok r, s2)
    | (Except.error _, s2) =>
      (Except.ok JsVal.jsNull,
       populateError (JsVal.jsStr "Error occurred during multi-query") s2)
  | (Except.error e, s1) => (Except.error e, s1)

/-- The body of one iteration of the `for` loop in `checkDBConnection`.
When `connectDB` yields null the loop records the failure and then
evaluates `database.close()` on null, a TypeError; the catch block records
the error and again evaluates `await database.close()`, but `database` is
a `const` scoped to the try block, so the catch itself throws a
ReferenceError, which propagates.  The same catch path is reached when the
facade close of a successfully acquired connection throws. -/
def checkModule (d : Driver) (moduleName : String) (s : St) :
    Except JsErr Bool × St :=
  match connectDB d (JsVal.jsStr moduleName) s with
  | (Except.ok none, s1) =>
    let s2 := populateError (JsVal.jsStr "Error connecting to database") s1
    let s3 := populateError (JsVal.jsStr "Error connecting to database") s2
    (Except.error (JsErr.refErr "database is not defined"), s3)
  | (Except.ok (some _), s1) =>
    match fClose d s1 with
    | (Except.ok _, s2) => (Except.ok true, s2)
    | (Except.error _, s2) =>
      let s3 := populateError (JsVal.jsStr "Error connecting to database") s2
      (Except.error (JsErr.refErr "database is not defined"), s3)
  | (Except.error e, s1) => (Except.error e, s1)

/-- `checkDBConnection()`: iterate the module array, returning false as soon
as an iteration flags failure (in fact the only failing iterations throw,
see `checkModule`), true when every module passes. -/
def checkDBConnection (d : Driver) (moduleArray : List String) (s : St) :
    Except JsErr Bool × St :=
  match moduleArray with
  | [] => (Except.ok true, s)
  | m :: rest =>
    match checkModule d m s with
    | (Except.ok true, s1) => checkDBConnection d rest s1
    | (Except.ok false, s1) => (Except.ok false, s1)
    | (Except.error e, s1) => (Except.error e, s1)

/-- `init()`: returns the result of `checkDBConnection` (the console print
of the last error on failure is elided); a throw from the check propagates
out of `init`, which has no try/catch. -/
def init (d : Driver) (moduleArray : List String) (s : St) :
    Except JsErr Bool × St :=
  checkDBConnection d moduleArray s

/-- Empty initial connector state. -/
def st0 : St := { events := [], errors := [] }

/-- A driver on which every primitive succeeds; the query result for sql
value `v` is the singleton array holding `v`, commit and rollback resolve
with `undefined` as the promisified node-mysql callbacks do. -/
def dOk : Driver where
  acquireOk := fun _ => true
  queryOk := fun _ => true
  queryRes := fun v => JsVal.jsArr [v]
  beginOk := true
  commitOk := true
  commitRes := JsVal.undef
  rollbackOk := true
  rollbackRes := JsVal.undef
  closeOk := true

/-- Driver whose commit fails (rollback and close still work). -/
def dCommitFail : Driver := { dOk with commitOk := false }

/-- Driver whose rollback fails. -/
def dRollbackFail : Driver := { dOk with rollbackOk := false }

/-- Driver whose pool acquire fails for every module. -/
def dAcquireFail : Driver := { dOk with acquireOk := fun _ => false }

/-- Driver on which exactly the sql value `"bad"` fails. -/
def dBadQuery : Driver :=
  { dOk with queryOk := fun v => match v with
      | JsVal.jsStr m => !(m == "bad")
      | _ => true }

/-- Driver whose transaction begin fails. -/
def dBeginFail : Driver := { dOk with beginOk := false }

/-- On a driver where every statement of the batch succeeds, the loop of
`queryDBMultiple` resolves with the per-statement results in array order,
having issued exactly one query event per statement, in order. -/
theorem runQueries_ok (d : Driver) :
    ∀ (qs : List (JsVal × JsVal)) (s : St), (∀ q ∈ qs, d.queryOk q.1 = true) →
      runQueries d qs s =
        (Except.ok (qs.map fun q => d.queryRes q.1),
         { s with events := s.events ++ qs.map fun q => Event.query q.1 q.2 }) := by
  intro qs
  induction qs with
  | nil => intro s h; simp [runQueries]
  | cons q rest ih =>
    intro s h
    have hq : d.queryOk q.1 = true := h q (List.mem_cons_self q rest)
    have hrest : ∀ p ∈ rest, d.queryOk p.1 = true :=
      fun p hp => h p (List.mem_cons_of_mem q hp)
    simp [runQueries, fQuery, addEvent, hq, ih _ hrest]

/-- When the statements before `bad` succeed and `bad` fails, the loop of
`queryDBMultiple` throws right after the failing query event: the
statements after `bad` are never submitted. -/
theorem runQueries_fail (d : Driver) (bad : JsVal × JsVal)
    (hbad : d.queryOk bad.1 = false) :
    ∀ (pre post : List (JsVal × JsVal)) (s : St),
      (∀ q ∈ pre, d.queryOk q.1 = true) →
      runQueries d (pre ++ bad :: post) s =
        (Except.error (JsErr.driverErr "query failed"),
         { s with events := s.events ++ (pre.map fun q => Event.query q.1 q.2) ++
             [Event.query bad.1 bad.2] }) := by
  intro pre
  induction pre with
  | nil => intro post s h; simp [runQueries, fQuery, addEvent, hbad]
  | cons q rest ih =>
    intro post s h
    have hq : d.queryOk q.1 = true := h q (List.mem_cons_self q rest)
    have hrest : ∀ p ∈ rest, d.queryOk p.1 = true :=
      fun p hp => h p (List.mem_cons_of_mem q hp)
    simp [runQueries, fQuery, addEvent, hq, ih post _ hrest]

/-- Claim C1: for every batch passed to `queryDBMultiple`, the statements
are executed in array order inside one transaction (one begin, then the
query events in array order).  If every statement succeeds the call issues
the commit and returns the ordered per-statement results; if some
statement fails, no later statement is submitted, no commit event occurs,
a rollback event is issued, and the overall result is null. -/
theorem queryDBMultiple_batch_semantics (d : Driver) (moduleName : JsVal) (s : St)
    (hm : isUndef moduleName = false) (ha : d.acquireOk moduleName = true)
    (hb : d.beginOk = true) (hcl : d.closeOk = true) :
    (∀ qs : List (JsVal × JsVal), (∀ q ∈ qs, d.queryOk q.1 = true) →
      d.commitOk = true →
      queryDBMultiple d qs moduleName s =
        (Except.ok (JsVal.jsArr (qs.map fun q => d.queryRes q.1)),
         { s with events := s.events ++ [Event.acquire moduleName, Event.beginTx] ++
             (qs.map fun q => Event.query q.1 q.2) ++
             [Event.commitTx, Event.closeTx] })) ∧
    (∀ (pre : List (JsVal × JsVal)) (bad : JsVal × JsVal)
        (post : List (JsVal × JsVal)),
      (∀ q ∈ pre, d.queryOk q.1 = true) → d.queryOk bad.1 = false →
      (queryDBMultiple d (pre ++ bad :: post) moduleName s).1 =
        Except.ok JsVal.jsNull ∧
      (queryDBMultiple d (pre ++ bad :: post) moduleName s).2.events =
        s.events ++ [Event.acquire moduleName, Event.beginTx] ++
          (pre.map fun q => Event.query q.1 q.2) ++
          [Event.query bad.1 bad.2, Event.rollbackTx, Event.closeTx]) := by
  constructor
  · intro qs hq hc
    have hrun := fun s' => runQueries_ok d qs s' hq
    simp [queryDBMultiple, queryWithTransaction, connectDB, fBegin, fCommit, fClose,
          addEvent, hm, ha, hb, hc, hcl, hrun]
  · intro pre bad post hpre hbad
    have hrun := fun s' => runQueries_fail d bad hbad pre post s' hpre
    cases hr : d.rollbackOk <;>
      simp [queryDBMultiple, queryWithTransaction, qwtCatch, connectDB, fBegin,
            fRollback, fClose, addEvent, hm, ha, hb, hcl, hr, hrun,
            populateError, pushErr]

/-- Witness for claim C1 at concrete batches: a one-statement batch that
succeeds commits and returns its result list; a two-statement batch whose
first statement fails yields null. -/
theorem queryDBMultiple_batch_semantics_witness :
    queryDBMultiple dOk [(JsVal.jsStr "a", JsVal.jsNull)] (JsVal.jsStr "m") st0 =
      (Except.ok (JsVal.jsArr [JsVal.jsArr [JsVal.jsStr "a"]]),
       { events := [Event.acquire (JsVal.jsStr "m"), Event.beginTx,
                    Event.query (JsVal.jsStr "a") JsVal.jsNull,
                    Event.commitTx, Event.closeTx],
         errors := [] }) ∧
    (queryDBMultiple dBadQuery
      [(JsVal.jsStr "bad", JsVal.jsNull), (JsVal.jsStr "c", JsVal.jsNull)]
      (JsVal.jsStr "m") st0).1 = Except.ok JsVal.jsNull := by
  constructor
  · have h := (queryDBMultiple_batch_semantics dOk (JsVal.jsStr "m") st0
      rfl rfl rfl rfl).1 [(JsVal.jsStr "a", JsVal.jsNull)] (fun q _ => rfl) rfl
    simpa [st0, dOk] using h
  · have h := (queryDBMultiple_batch_semantics dBadQuery (JsVal.jsStr "m") st0
      rfl rfl rfl rfl).2 [] (JsVal.jsStr "bad", JsVal.jsNull)
      [(JsVal.jsStr "c", JsVal.jsNull)]
      (fun q hq => absurd hq (List.not_mem_nil q)) (by decide)
    exact h.1

/-- Claim C2 (divergence witness): on a non-null handle whose driver commit
fails while the rollback succeeds, with the default `closeAfter = true`,
`commitTransaction` does attempt the rollback but never invokes close on
the underlying connection: the trace holds the commit and rollback events
only, no `closeTx`.  The logical-AND assignment
`commitSuccess &&= await this.closeTransaction(transaction)` short-circuits
on the false `commitSuccess`, so `closeTransaction` is never evaluated,
against the documented intent that the connection is released after the
commit unless the caller opts out. -/
theorem commitTransaction_commitFail_skips_close :
    commitTransaction dCommitFail (some ()) true st0 =
      (Except.ok (JsVal.jsBool false),
       { events := [Event.commitTx, Event.rollbackTx],
         errors := ["Error committing transaction"] }) := rfl

/-- Claim C3 (divergence witness): with one module whose pool acquire
fails, `init` does record the failure in the ledger but then raises a
ReferenceError instead of returning false: the catch block of
`checkDBConnection` evaluates `database.close()` although `database` is
scoped to the try block, so the rejection propagates out of `init`, whose
`return false` path is unreachable. -/
theorem init_raises_on_module_failure :
    init dAcquireFail ["main"] st0 =
      (Except.error (JsErr.refErr "database is not defined"),
       { events := [Event.acquire (JsVal.jsStr "main")],
         errors := ["Could not interact with the database",
                    "Error connecting to database",
                    "Error connecting to database"] }) := rfl

/-- When every configured module can yield and release one connection,
`init` returns true with a clean ledger (the positive half of claim C3,
which does hold on the code). -/
theorem init_all_modules_ok (d : Driver) (hc : d.closeOk = true) :
    ∀ (mods : List String) (s : St),
      (∀ m ∈ mods, d.acquireOk (JsVal.jsStr m) = true) →
      (init d mods s).1 = Except.ok true ∧ (init d mods s).2.errors = s.errors := by
  intro mods
  induction mods with
  | nil => intro s _; simp [init, checkDBConnection]
  | cons m rest ih =>
    intro s h
    have hm : d.acquireOk (JsVal.jsStr m) = true := h m (List.mem_cons_self m rest)
    have hrest : ∀ p ∈ rest, d.acquireOk (JsVal.jsStr p) = true :=
      fun p hp => h p (List.mem_cons_of_mem m hp)
    have ih1 : ∀ s' : St, (init d rest s').1 = Except.ok true :=
      fun s' => (ih s' hrest).1
    have ih2 : ∀ s' : St, (init d rest s').2.errors = s'.errors :=
      fun s' => (ih s' hrest).2
    simp [init] at ih1 ih2
    simp [init, checkDBConnection, checkModule, connectDB, fClose, addEvent,
          isUndef, hm, hc, ih1, ih2]

/-- Claim C4: `queryDB` with an undefined query or an undefined module name
performs no driver call at all (the event trace is unchanged), appends one
record to the error ledger, and returns null. -/
theorem queryDB_undefined_args_no_io (d : Driver)
    (query moduleName vals transaction : JsVal) (s : St)
    (h : isUndef query = true ∨ isUndef moduleName = true) :
    (queryDB d query moduleName vals transaction s).1 = Except.ok JsVal.jsNull ∧
    (queryDB d query moduleName vals transaction s).2.events = s.events ∧
    (queryDB d query moduleName vals transaction s).2.errors.length =
      s.errors.length + 1 := by
  by_cases hq : isUndef query = true
  · simp [queryDB, hq, populateError, pushErr]
  · have hm : isUndef moduleName = true := h.resolve_left hq
    simp [queryDB, hq, hm, populateError, pushErr]

/-- Witness for claim C4 at an undefined query. -/
theorem queryDB_undefined_args_no_io_witness :
    (queryDB dOk JsVal.undef (JsVal.jsStr "main") JsVal.jsNull JsVal.undef st0).1 =
      Except.ok JsVal.jsNull ∧
    (queryDB dOk JsVal.undef (JsVal.jsStr "main") JsVal.jsNull JsVal.undef st0).2.events =
      st0.events ∧
    (queryDB dOk JsVal.undef (JsVal.jsStr "main") JsVal.jsNull JsVal.undef st0).2.errors.length =
      st0.errors.length + 1 :=
  queryDB_undefined_args_no_io dOk JsVal.undef (JsVal.jsStr "main") JsVal.jsNull
    JsVal.undef st0 (Or.inl rfl)

/-- Claim C5: on the auto-managed path (no transaction supplied), a failing
driver query is caught: the error is recorded in the ledger, the result is
null, and the privately acquired connection is still released (the trace
ends with the close event, whether or not that close itself succeeds). -/
theorem queryDB_autopath_queryFail (d : Driver) (query moduleName vals : JsVal)
    (s : St) (hq : isUndef query = false) (hm : isUndef moduleName = false)
    (ha : d.acquireOk moduleName = true) (hf : d.queryOk query = false) :
    (queryDB d query moduleName vals JsVal.undef s).1 = Except.ok JsVal.jsNull ∧
    (queryDB d query moduleName vals JsVal.undef s).2.events =
      s.events ++ [Event.acquire moduleName, Event.query query vals, Event.closeTx] ∧
    "Could not query the database" ∈
      (queryDB d query moduleName vals JsVal.undef s).2.errors := by
  cases hcl : d.closeOk <;>
    simp [queryDB, hq, hm, isNullish, connectDB, fQuery, fClose, addEvent, ha, hf,
          hcl, populateError, pushErr]

/-- Witness for claim C5 at a concrete failing statement. -/
theorem queryDB_autopath_queryFail_witness :
    (queryDB dBadQuery (JsVal.jsStr "bad") (JsVal.jsStr "main") JsVal.jsNull
      JsVal.undef st0).1 = Except.ok JsVal.jsNull ∧
    (queryDB dBadQuery (JsVal.jsStr "bad") (JsVal.jsStr "main") JsVal.jsNull
      JsVal.undef st0).2.events =
      st0.events ++ [Event.acquire (JsVal.jsStr "main"),
        Event.query (JsVal.jsStr "bad") JsVal.jsNull, Event.closeTx] ∧
    "Could not query the database" ∈
      (queryDB dBadQuery (JsVal.jsStr "bad") (JsVal.jsStr "main") JsVal.jsNull
        JsVal.undef st0).2.errors :=
  queryDB_autopath_queryFail dBadQuery (JsVal.jsStr "bad") (JsVal.jsStr "main")
    JsVal.jsNull st0 rfl rfl rfl (by decide)

/-- Claim C6 (divergence witness): on a non-null handle whose driver
rollback fails, `rollBackTransaction` does return false without throwing,
but no close attempt is made on the connection, with either value of
`closeAfter`: although the catch forces the close flag to true, the
logical-AND assignment `rollBackSuccess &&= await this.closeTransaction(...)`
short-circuits on the false `rollBackSuccess`, so the forced close never
executes and the trace holds only the rollback event. -/
theorem rollBackTransaction_rollbackFail_skips_close :
    (rollBackTransaction dRollbackFail (some ()) false st0 =
      (Except.ok (JsVal.jsBool false),
       { events := [Event.rollbackTx],
         errors := ["Error rolling transaction back"] })) ∧
    (rollBackTransaction dRollbackFail (some ()) true st0 =
      (Except.ok (JsVal.jsBool false),
       { events := [Event.rollbackTx],
         errors := ["Error rolling transaction back"] })) :=
  ⟨rfl, rfl⟩

/-- Claim C7: in `beginTransaction`, when the driver begin fails after a
connection was acquired, the connection is closed and the call returns
null (no live handle); when the begin succeeds, the live handle wrapping
the acquired connection is returned. -/
theorem beginTransaction_beginFail_closes (d : Driver) (moduleName : JsVal)
    (s : St) (hm : isUndef moduleName = false)
    (ha : d.acquireOk moduleName = true) (hcl : d.closeOk = true) :
    (d.beginOk = false →
      beginTransaction d moduleName s =
        (Except.ok none,
         { events := s.events ++ [Event.acquire moduleName, Event.beginTx,
             Event.closeTx],
           errors := s.errors ++ ["Error beginning"] })) ∧
    (d.beginOk = true →
      beginTransaction d moduleName s =
        (Except.ok (some ()),
         { events := s.events ++ [Event.acquire moduleName, Event.beginTx],
           errors := s.errors })) := by
  constructor <;> intro hb <;>
    simp [beginTransaction, connectDB, fBegin, fClose, addEvent, hm, ha, hb, hcl,
          populateError, pushErr]

/-- Witness for claim C7 at a driver whose begin fails. -/
theorem beginTransaction_beginFail_closes_witness :
    beginTransaction dBeginFail (JsVal.jsStr "main") st0 =
      (Except.ok none,
       { events := st0.events ++ [Event.acquire (JsVal.jsStr "main"),
           Event.beginTx, Event.closeTx],
         errors := st0.errors ++ ["Error beginning"] }) :=
  (beginTransaction_beginFail_closes dBeginFail (JsVal.jsStr "main") st0
    rfl rfl rfl).1 rfl

/-- Claim C8: on a null transaction handle, each of `commitTransaction`,
`rollBackTransaction` and `closeTransaction` returns false, appends exactly
one record to the error ledger, and performs no driver operation (the
event trace is untouched: `pushErr` only extends `errors`). -/
theorem null_transaction_handlers (d : Driver) (closeAfter : Bool) (s : St) :
    commitTransaction d none closeAfter s =
      (Except.ok (JsVal.jsBool false),
       pushErr "Could not commit transaction. Invalid connection provided" s) ∧
    rollBackTransaction d none closeAfter s =
      (Except.ok (JsVal.jsBool false),
       pushErr "Could not roll back transaction. Invalid connection provided" s) ∧
    closeTransaction d none s =
      (Except.ok (JsVal.jsBool false),
       pushErr "Could not close transaction. Invalid connection provided" s) :=
  ⟨rfl, rfl, rfl⟩

/-- Claim C9: the validation of `queryDB` tests `typeof x === "undefined"`
only, so a null query with a defined module name passes it: no error is
recorded, a connection is acquired, and the null sql value itself is
submitted to the driver. -/
theorem queryDB_null_query_passes_validation (d : Driver) (moduleName vals : JsVal)
    (s : St) (hm : isUndef moduleName = false)
    (ha : d.acquireOk moduleName = true) (hq : d.queryOk JsVal.jsNull = true)
    (hcl : d.closeOk = true) :
    queryDB d JsVal.jsNull moduleName vals JsVal.undef s =
      (Except.ok (d.queryRes JsVal.jsNull),
       { s with events := s.events ++ [Event.acquire moduleName,
           Event.query JsVal.jsNull vals, Event.closeTx] }) := by
  simp [queryDB, show isUndef JsVal.jsNull = false from rfl, isNullish, connectDB,
        fQuery, fClose, addEvent, hm, ha, hq, hcl]

/-- Witness for claim C9: the null query reaches the driver and its result
comes back, the ledger stays empty. -/
theorem queryDB_null_query_passes_validation_witness :
    queryDB dOk JsVal.jsNull (JsVal.jsStr "main") (JsVal.jsArr []) JsVal.undef st0 =
      (Except.ok (JsVal.jsArr [JsVal.jsNull]),
       { st0 with events := st0.events ++ [Event.acquire (JsVal.jsStr "main"),
           Event.query JsVal.jsNull (JsVal.jsArr []), Event.closeTx] }) :=
  queryDB_null_query_passes_validation dOk (JsVal.jsStr "main") (JsVal.jsArr [])
    st0 rfl rfl rfl rfl

/-- Claim C10: on an empty statement array, `queryDBMultiple` still
acquires a connection, begins and commits a transaction (and releases the
connection), and returns the empty result array rather than null. -/
theorem queryDBMultiple_empty_batch (d : Driver) (moduleName : JsVal) (s : St)
    (hm : isUndef moduleName = false) (ha : d.acquireOk moduleName = true)
    (hb : d.beginOk = true) (hc : d.commitOk = true) (hcl : d.closeOk = true) :
    queryDBMultiple d [] moduleName s =
      (Except.ok (JsVal.jsArr []),
       { s with events := s.events ++ [Event.acquire moduleName, Event.beginTx,
           Event.commitTx, Event.closeTx] }) := by
  simp [queryDBMultiple, queryWithTransaction, runQueries, connectDB, fBegin,
        fCommit, fClose, addEvent, hm, ha, hb, hc, hcl]

/-- Witness for claim C10 at a concrete module. -/
theorem queryDBMultiple_empty_batch_witness :
    queryDBMultiple dOk [] (JsVal.jsStr "m") st0 =
      (Except.ok (JsVal.jsArr []),
       { st0 with events := st0.events ++ [Event.acquire (JsVal.jsStr "m"),
           Event.beginTx, Event.commitTx, Event.closeTx] }) :=
  queryDBMultiple_empty_batch dOk (JsVal.jsStr "m") st0 rfl rfl rfl rfl rfl

end DxDb
